import Mathlib

/-!
Verification development for the `ai_wrapper_client` repository
(`client/ai_wrapper.py`): a thin synchronous HTTP client for an
"AI Wrapper" service, together with two free helper functions
(`encode_image`, `quick_chat`).

Shallow embedding conventions:

* JSON values are the inductive `Json`; a Python value obtained from
  `response.json()` is represented by a `Json` (with `Json.null` standing
  for Python `None`).  Numbers are modelled as integers — no claim in this
  development concerns fractional JSON numbers.
* The HTTP transport (the `requests` library) is modelled by a `World`
  function mapping each issued `HttpRequest` to a `TransportResult`:
  the call either times out (raising `requests.exceptions.Timeout`), fails
  in the transport (raising another `requests.exceptions.RequestException`,
  e.g. DNS failure or connection refused), or yields an HTTP response with
  a status code, a reason phrase and a body.  The body is represented by
  its JSON parse result: `some j` when the body parses as JSON `j`, `none`
  when it is empty/malformed (so that `.json()` raises `JSONDecodeError`).
* Python exception flow is modelled with `Except PyExc`; `try/except`
  blocks become matches on the `Except` value, with the `except` clause's
  class test rendered by `PyExc.isRequestException`
  (`requests.exceptions.Timeout`, `requests.exceptions.HTTPError` and —
  since requests 2.27.0 — the `requests.exceptions.JSONDecodeError` raised
  by `Response.json()` are all subclasses of
  `requests.exceptions.RequestException`).
-/

/-- JSON values (Python objects produced by `json.loads`); `null` doubles as
Python `None`.  Objects carry their key/value pairs with distinct keys, as
produced by Python's JSON parser. -/
inductive Json where
  | null : Json
  | bool (b : Bool) : Json
  | num (n : Int) : Json
  | str (s : String) : Json
  | arr (elems : List Json) : Json
  | obj (fields : List (String × Json)) : Json

/-- Whether a Python/JSON value is a string. -/
def Json.isStr : Json → Bool
  | .str _ => true
  | _ => false

mutual

/-- Python `repr` of a JSON-decoded value (string escaping elided: the keys
and values appearing in this development contain no characters that Python
would escape). -/
def pyRepr : Json → String
  | Json.null => "None"
  | Json.bool b => if b then "True" else "False"
  | Json.num n => toString n
  | Json.str s => "\x27" ++ s ++ "\x27"
  | Json.arr xs => "[" ++ pyReprList xs ++ "]"
  | Json.obj kvs => "\x7b" ++ pyReprFields kvs ++ "\x7d"

/-- Comma-separated reprs of a list's elements. -/
def pyReprList : List Json → String
  | [] => ""
  | [x] => pyRepr x
  | x :: xs => pyRepr x ++ ", " ++ pyReprList xs

/-- Comma-separated reprs of a dict's entries. -/
def pyReprFields : List (String × Json) → String
  | [] => ""
  | [kv] => "\x27" ++ kv.1 ++ "\x27: " ++ pyRepr kv.2
  | kv :: kvs => "\x27" ++ kv.1 ++ "\x27: " ++ pyRepr kv.2 ++ ", " ++ pyReprFields kvs

end

/-- Python `str` of a JSON-decoded value (as used by an f-string such as
`f"Error: \x7bresponse.error\x7d"`): identity on strings, `repr` otherwise
(`None` prints as `None`). -/
def pyStr : Json → String
  | Json.str s => s
  | j => pyRepr j

/-- Python `==` between a decoded JSON value and a string literal: true
exactly for the equal string (a non-string compared to a string is unequal,
never an error). -/
def pyEqStr (v : Json) (s : String) : Bool :=
  match v with
  | Json.str t => t == s
  | _ => false

/-- Python `dict.get(k)` on a decoded JSON object: the value stored at `k`,
or `None` when the key is absent (note a stored JSON `null` also comes back
as Python `None`). -/
def pyDictGet (d : List (String × Json)) (k : String) : Json :=
  ((d.find? (fun kv => kv.1 == k)).map (fun kv => kv.2)).getD Json.null

/-- Python `dict.get(k, default)` on a decoded JSON object. -/
def pyDictGetD (d : List (String × Json)) (k : String) (dflt : Json) : Json :=
  ((d.find? (fun kv => kv.1 == k)).map (fun kv => kv.2)).getD dflt

/-- Python exceptions that arise in this program.  The first three are the
`requests` exceptions (`Timeout`, another transport-level
`RequestException`, and `HTTPError` from `raise_for_status`); each carries
its `str(e)` message. -/
inductive PyExc where
  | timeout (msg : String) : PyExc
  | connError (msg : String) : PyExc
  | httpError (msg : String) : PyExc
  | jsonDecodeError (msg : String) : PyExc
  | attributeError (msg : String) : PyExc
  | fileNotFound (path : String) : PyExc

/-- Class test for `except requests.exceptions.RequestException`: `Timeout`
and `HTTPError` are subclasses of `RequestException`, and so (since
requests 2.27.0) is the `requests.exceptions.JSONDecodeError` raised by
`Response.json()`, via `InvalidJSONError`. -/
def PyExc.isRequestException : PyExc → Bool
  | .timeout _ => true
  | .connError _ => true
  | .httpError _ => true
  | .jsonDecodeError _ => true
  | _ => false

/-- Python `str(e)` of an exception. -/
def PyExc.msg : PyExc → String
  | .timeout m => m
  | .connError m => m
  | .httpError m => m
  | .jsonDecodeError m => m
  | .attributeError m => m
  | .fileNotFound p => "No such file or directory: " ++ p

/-- An HTTP request as issued by the `requests` calls in the source:
method, full URL, optional JSON payload (the `json=` argument), and the
`timeout=` argument in seconds. -/
structure HttpRequest where
  method : String
  url : String
  jsonBody : Option Json
  timeout : Nat

/-- Outcome of one HTTP call at the transport layer. -/
inductive TransportResult where
  | timedOut (msg : String) : TransportResult
  | failed (msg : String) : TransportResult
  | response (status_code : Nat) (reason : String) (body : Option Json) : TransportResult

/-- The environment: what the network does for each issued request. -/
abbrev World := HttpRequest → TransportResult

/-- A `requests.Response`: the URL it answered, its status code, reason
phrase, and body (represented by its JSON parse result). -/
structure HttpResponse where
  url : String
  status_code : Nat
  reason : String
  jsonBody : Option Json

/-- One `requests.get`/`requests.post` call: raises `Timeout` or another
`RequestException` on transport failure, otherwise yields the response. -/
def requestsCall (world : World) (req : HttpRequest) : Except PyExc HttpResponse :=
  match world req with
  | .timedOut m => .error (.timeout m)
  | .failed m => .error (.connError m)
  | .response code reason body =>
      .ok { url := req.url, status_code := code, reason := reason, jsonBody := body }

/-- Message of the `HTTPError` raised by `Response.raise_for_status` for a
4xx (client error) or 5xx (server error) status. -/
def httpErrorMsg (code : Nat) (reason url : String) : String :=
  if 400 ≤ code ∧ code < 500 then
    toString code ++ " Client Error: " ++ reason ++ " for url: " ++ url
  else
    toString code ++ " Server Error: " ++ reason ++ " for url: " ++ url

/-- Model of `requests.Response.raise_for_status`: raises `HTTPError` for a
status code in 400–599, returns normally for every other code. -/
def HttpResponse.raise_for_status (r : HttpResponse) : Except PyExc Unit :=
  if (400 ≤ r.status_code ∧ r.status_code < 500) ∨
     (500 ≤ r.status_code ∧ r.status_code < 600) then
    .error (.httpError (httpErrorMsg r.status_code r.reason r.url))
  else
    .ok ()

/-- Model of `requests.Response.json()`: the parsed body, or a
`JSONDecodeError` when the body is not valid JSON. -/
def HttpResponse.json (r : HttpResponse) : Except PyExc Json :=
  match r.jsonBody with
  | some j => .ok j
  | none => .error (.jsonDecodeError "Expecting value")

/-- Python attribute access `data.get` requires `data` to be a dict:
any other JSON value raises `AttributeError`. -/
def pyGetAsDict : Json → Except PyExc (List (String × Json))
  | Json.obj fields => .ok fields
  | _ => .error (.attributeError "object has no attribute get")

/-- The `ChatResponse` dataclass.  Fields hold the raw Python values taken
from the parsed body (Python performs no type validation on dataclass
fields); `Json.null` is the default `None`. -/
structure ChatResponse where
  status : Json
  project_id : Json := Json.null
  response : Json := Json.null
  error : Json := Json.null
  images_uploaded : Json := Json.null

/-- The `success` property: `self.status == "success"`. -/
def ChatResponse.success (r : ChatResponse) : Bool :=
  pyEqStr r.status "success"

/-- The `AIClient` object's configuration (set once in `__init__`). -/
structure AIClient where
  base_url : String
  timeout : Nat

/-- Python `s.rstrip(slash)`: drop all trailing `/` characters. -/
def rstripSlash (s : String) : String :=
  String.mk ((s.toList.reverse.dropWhile (fun c => c == '/')).reverse)

/-- The request issued by `_verify_connection`:
`requests.get(f"...{base_url}/status", timeout=5)`. -/
def AIClient.probeRequest (base_url : String) : HttpRequest :=
  { method := "GET", url := base_url ++ "/status", jsonBody := none, timeout := 5 }

/-- Translation of `AIClient._verify_connection`: probe `GET /status` with a
5-second timeout; warn (returning the printed lines) on a non-200 status or
on any `RequestException`; re-raise anything else. -/
def verify_connection (base_url : String) (world : World) : Except PyExc (List String) :=
  match requestsCall world (AIClient.probeRequest base_url) with
  | .ok resp =>
      .ok (if resp.status_code ≠ 200 then
             ["Warning: API returned status code " ++ toString resp.status_code]
           else [])
  | .error e =>
      if e.isRequestException then
        .ok ["Warning: Could not connect to API: " ++ e.msg]
      else
        .error e

/-- Translation of `AIClient.__init__(base_url, timeout=180)`: store the
trailing-slash-stripped base URL and the timeout, then run
`_verify_connection`.  Yields the constructed client together with the
warning lines the probe printed. -/
def mkAIClient (base_url : String) (timeout : Nat) (world : World) :
    Except PyExc (AIClient × List String) :=
  match verify_connection (rstripSlash base_url) world with
  | .ok ws => .ok ({ base_url := rstripSlash base_url, timeout := timeout }, ws)
  | .error e => .error e

/-- Embedding of a Python optional argument in a JSON payload: `None`
serialises as `null`. -/
def jsonOfOption (f : α → Json) : Option α → Json
  | none => Json.null
  | some a => f a

/-- The `payload` dict built by `AIClient.chat`: exactly the keys `prompt`,
`project_url` and `images`, the latter two `null` when not supplied. -/
def chatPayload (prompt : String) (project_url : Option String)
    (images : Option (List String)) : Json :=
  Json.obj
    [("prompt", Json.str prompt),
     ("project_url", jsonOfOption Json.str project_url),
     ("images", jsonOfOption (fun xs => Json.arr (xs.map Json.str)) images)]

/-- The request issued by `AIClient.chat`:
`requests.post(f"...{base_url}/chat", json=payload, timeout=self.timeout)`. -/
def AIClient.chatRequest (c : AIClient) (prompt : String)
    (project_url : Option String) (images : Option (List String)) : HttpRequest :=
  { method := "POST", url := c.base_url ++ "/chat",
    jsonBody := some (chatPayload prompt project_url images),
    timeout := c.timeout }

/-- The `ChatResponse(...)` constructor call in `AIClient.chat`: each field
read from the parsed body with `data.get`, `status` defaulting to
`"error"`. -/
def chatResponseOfDict (d : List (String × Json)) : ChatResponse :=
  { status := pyDictGetD d "status" (Json.str "error"),
    project_id := pyDictGet d "project_id",
    response := pyDictGet d "response",
    error := pyDictGet d "error",
    images_uploaded := pyDictGet d "images_uploaded" }

/-- The `try` block of `AIClient.chat` applied to the outcome of the
`requests.post` call: `raise_for_status`, then `json()`, then the
`data.get` reads building the `ChatResponse`. -/
def chatTryBody (r : Except PyExc HttpResponse) : Except PyExc ChatResponse :=
  match r with
  | .error e => .error e
  | .ok resp =>
      match resp.raise_for_status with
      | .error e => .error e
      | .ok _ =>
          match resp.json with
          | .error e => .error e
          | .ok data =>
              match pyGetAsDict data with
              | .error e => .error e
              | .ok d => .ok (chatResponseOfDict d)

/-- The `try/except` structure of `AIClient.chat`: a `Timeout` and any
other `RequestException` are converted to error-valued `ChatResponse`s;
every other exception propagates. -/
def chatHandle (r : Except PyExc HttpResponse) : Except PyExc ChatResponse :=
  match chatTryBody r with
  | .ok cr => .ok cr
  | .error (.timeout _) =>
      .ok { status := Json.str "error",
            error := Json.str "Request timeout - AI taking too long to respond" }
  | .error e =>
      if e.isRequestException then
        .ok { status := Json.str "error",
              error := Json.str ("Request failed: " ++ e.msg) }
      else
        .error e

/-- Translation of `AIClient.chat(prompt, project_url=None, images=None)`. -/
def AIClient.chat (c : AIClient) (world : World) (prompt : String)
    (project_url : Option String) (images : Option (List String)) :
    Except PyExc ChatResponse :=
  chatHandle (requestsCall world (c.chatRequest prompt project_url images))

/-- The request issued by `AIClient.get_status`. -/
def AIClient.statusRequest (c : AIClient) : HttpRequest :=
  { method := "GET", url := c.base_url ++ "/status", jsonBody := none, timeout := 5 }

/-- Translation of `AIClient.get_status`: `GET /status` (5s timeout);
`raise_for_status`; return the decoded JSON body. -/
def AIClient.get_status (c : AIClient) (world : World) : Except PyExc Json :=
  match requestsCall world c.statusRequest with
  | .error e => .error e
  | .ok resp =>
      match resp.raise_for_status with
      | .error e => .error e
      | .ok _ => resp.json

/-- The request issued by `AIClient.list_projects`. -/
def AIClient.projectsRequest (c : AIClient) : HttpRequest :=
  { method := "GET", url := c.base_url ++ "/projects", jsonBody := none, timeout := 5 }

/-- Translation of `AIClient.list_projects`: `GET /projects` (5s timeout);
`raise_for_status`; return the decoded JSON body. -/
def AIClient.list_projects (c : AIClient) (world : World) : Except PyExc Json :=
  match requestsCall world c.projectsRequest with
  | .error e => .error e
  | .ok resp =>
      match resp.raise_for_status with
      | .error e => .error e
      | .ok _ => resp.json

/-- The request issued by `AIClient.reload_engine`. -/
def AIClient.reloadRequest (c : AIClient) : HttpRequest :=
  { method := "POST", url := c.base_url ++ "/reload", jsonBody := none, timeout := 30 }

/-- Translation of `AIClient.reload_engine`: `POST /reload` (30s timeout);
`raise_for_status`; return the decoded JSON body. -/
def AIClient.reload_engine (c : AIClient) (world : World) : Except PyExc Json :=
  match requestsCall world c.reloadRequest with
  | .error e => .error e
  | .ok resp =>
      match resp.raise_for_status with
      | .error e => .error e
      | .ok _ => resp.json

/-- Translation of `quick_chat(prompt, base_url, project_url, images)`:
construct a throwaway `AIClient(base_url)` (default 180s timeout), call
`chat`, and return `response.response if response.success else
f"Error: \x7bresponse.error\x7d"`. -/
def quick_chat (prompt : String) (base_url : String)
    (project_url : Option String) (images : Option (List String))
    (world : World) : Except PyExc Json :=
  match mkAIClient base_url 180 world with
  | .error e => .error e
  | .ok (client, _ws) =>
      match client.chat world prompt project_url images with
      | .error e => .error e
      | .ok r =>
          .ok (if r.success then r.response
               else Json.str ("Error: " ++ pyStr r.error))

/-- The standard base64 alphabet used by Python's `base64.b64encode`. -/
def b64chars : List Char :=
  ['A', 'B', 'C', 'D', 'E', 'F', 'G', 'H', 'I', 'J', 'K', 'L', 'M',
   'N', 'O', 'P', 'Q', 'R', 'S', 'T', 'U', 'V', 'W', 'X', 'Y', 'Z',
   'a', 'b', 'c', 'd', 'e', 'f', 'g', 'h', 'i', 'j', 'k', 'l', 'm',
   'n', 'o', 'p', 'q', 'r', 's', 't', 'u', 'v', 'w', 'x', 'y', 'z',
   '0', '1', '2', '3', '4', '5', '6', '7', '8', '9', '+', '/']

/-- Character encoding a 6-bit value. -/
def sextetChar (n : Nat) : Char :=
  b64chars.getD n '?'

/-- Inverse lookup in the base64 alphabet. -/
def charSextet (c : Char) : Option Nat :=
  b64chars.findIdx? (fun d => d == c)

/-- Model of `base64.b64encode` on a byte sequence (bytes as naturals
below 256): encode 3-byte groups into 4 alphabet characters, padding a
final 1- or 2-byte group with `=`. -/
def b64EncodeBytes : List Nat → List Char
  | [] => []
  | [b0] =>
      [sextetChar (b0 / 4), sextetChar (b0 % 4 * 16), '=', '=']
  | [b0, b1] =>
      [sextetChar (b0 / 4), sextetChar (b0 % 4 * 16 + b1 / 16),
       sextetChar (b1 % 16 * 4), '=']
  | b0 :: b1 :: b2 :: rest =>
      sextetChar (b0 / 4) :: sextetChar (b0 % 4 * 16 + b1 / 16) ::
      sextetChar (b1 % 16 * 4 + b2 / 64) :: sextetChar (b2 % 64) ::
      b64EncodeBytes rest

/-- Model of standard base64 decoding (`base64.b64decode` on the strings
`b64encode` produces): groups of 4 characters become 3 bytes, with `=`
padding marking a short final group. -/
def b64DecodeChars : List Char → Option (List Nat)
  | [] => some []
  | c0 :: c1 :: c2 :: c3 :: rest =>
      if c2 = '=' then
        if c3 = '=' then
          if rest = [] then
            match charSextet c0, charSextet c1 with
            | some s0, some s1 => some [s0 * 4 + s1 / 16]
            | _, _ => none
          else none
        else none
      else if c3 = '=' then
        if rest = [] then
          match charSextet c0, charSextet c1, charSextet c2 with
          | some s0, some s1, some s2 =>
              some [s0 * 4 + s1 / 16, s1 % 16 * 16 + s2 / 4]
          | _, _, _ => none
        else none
      else
        match charSextet c0, charSextet c1, charSextet c2, charSextet c3,
              b64DecodeChars rest with
        | some s0, some s1, some s2, some s3, some tail =>
            some ((s0 * 4 + s1 / 16) :: (s1 % 16 * 16 + s2 / 4) ::
                  (s2 % 4 * 64 + s3) :: tail)
        | _, _, _, _, _ => none
  | _ => none

/-- Translation of the encoding expression in `encode_image`:
`base64.b64encode(f.read()).decode("utf-8")`. -/
def b64encode (bytes : List Nat) : String :=
  String.mk (b64EncodeBytes bytes)

/-- Base64 decoding of a string (the round-trip partner of `b64encode`). -/
def b64decodeString (s : String) : Option (List Nat) :=
  b64DecodeChars s.toList

/-- A file system: each path either holds a byte sequence or is absent. -/
abbrev FileSystem := String → Option (List Nat)

/-- Translation of `encode_image(image_path)`: `open` raises
`FileNotFoundError` when the path does not exist (caught nowhere);
otherwise the file's bytes are read fully and base64-encoded. -/
def encode_image (fs : FileSystem) (image_path : String) : Except PyExc String :=
  match fs image_path with
  | none => .error (.fileNotFound image_path)
  | some bytes => .ok (b64encode bytes)

/-- Alphabet lookup inverts character encoding on 6-bit values. -/
theorem charSextet_sextetChar : ∀ n, n < 64 → charSextet (sextetChar n) = some n := by
  decide

/-- No alphabet character is the padding character. -/
theorem sextetChar_ne_pad : ∀ n, n < 64 → sextetChar n ≠ '=' := by
  decide

/-- Decoding inverts encoding on byte sequences. -/
theorem b64_roundtrip : ∀ bs : List Nat, (∀ b ∈ bs, b < 256) →
    b64DecodeChars (b64EncodeBytes bs) = some bs
  | [], _ => rfl
  | [b0], h => by
      have hb0 : b0 < 256 := h b0 (by simp)
      have h0 := charSextet_sextetChar (b0 / 4) (by omega)
      have h1 := charSextet_sextetChar (b0 % 4 * 16) (by omega)
      simp [b64EncodeBytes, b64DecodeChars, h0, h1]
      omega
  | [b0, b1], h => by
      have hb0 : b0 < 256 := h b0 (by simp)
      have hb1 : b1 < 256 := h b1 (by simp)
      have h0 := charSextet_sextetChar (b0 / 4) (by omega)
      have h1 := charSextet_sextetChar (b0 % 4 * 16 + b1 / 16) (by omega)
      have h2 := charSextet_sextetChar (b1 % 16 * 4) (by omega)
      have hne : sextetChar (b1 % 16 * 4) ≠ '=' := sextetChar_ne_pad _ (by omega)
      simp [b64EncodeBytes, b64DecodeChars, hne, h0, h1, h2]
      omega
  | b0 :: b1 :: b2 :: rest, h => by
      have hb0 : b0 < 256 := h b0 (by simp)
      have hb1 : b1 < 256 := h b1 (by simp)
      have hb2 : b2 < 256 := h b2 (by simp)
      have ih := b64_roundtrip rest (fun b hb => h b (by simp [hb]))
      have h0 := charSextet_sextetChar (b0 / 4) (by omega)
      have h1 := charSextet_sextetChar (b0 % 4 * 16 + b1 / 16) (by omega)
      have h2 := charSextet_sextetChar (b1 % 16 * 4 + b2 / 64) (by omega)
      have h3 := charSextet_sextetChar (b2 % 64) (by omega)
      have hne2 : sextetChar (b1 % 16 * 4 + b2 / 64) ≠ '=' := sextetChar_ne_pad _ (by omega)
      have hne3 : sextetChar (b2 % 64) ≠ '=' := sextetChar_ne_pad _ (by omega)
      simp [b64EncodeBytes, b64DecodeChars, hne2, hne3, h0, h1, h2, h3, ih]
      refine ⟨by omega, by omega, by omega⟩

/-- `raise_for_status` raises `HTTPError` for a 4xx/5xx code. -/
theorem raise_for_status_error (u : String) (code : Nat) (reason : String)
    (body : Option Json) (h4 : 400 ≤ code) (h6 : code < 600) :
    HttpResponse.raise_for_status
      { url := u, status_code := code, reason := reason, jsonBody := body } =
      .error (.httpError (httpErrorMsg code reason u)) := by
  have hc : (400 ≤ code ∧ code < 500) ∨ (500 ≤ code ∧ code < 600) := by omega
  simp [HttpResponse.raise_for_status, hc]

/-- `raise_for_status` returns normally outside 400–599. -/
theorem raise_for_status_ok (u : String) (code : Nat) (reason : String)
    (body : Option Json) (h : ¬(400 ≤ code ∧ code < 600)) :
    HttpResponse.raise_for_status
      { url := u, status_code := code, reason := reason, jsonBody := body } = .ok () := by
  have hc : ¬((400 ≤ code ∧ code < 500) ∨ (500 ≤ code ∧ code < 600)) := by omega
  simp [HttpResponse.raise_for_status, hc]

/-- The warning lines printed by the connection probe, as a pure function of
the probe's outcome. -/
def probeWarnings (base_url : String) (world : World) : List String :=
  match requestsCall world (AIClient.probeRequest base_url) with
  | .ok resp =>
      if resp.status_code ≠ 200 then
        ["Warning: API returned status code " ++ toString resp.status_code]
      else []
  | .error e => ["Warning: Could not connect to API: " ++ e.msg]

/-- The probe never raises: every transport outcome is caught and turned
into warnings. -/
theorem verify_connection_eq (b : String) (w : World) :
    verify_connection b w = .ok (probeWarnings b w) := by
  unfold verify_connection probeWarnings
  rcases hw : w (AIClient.probeRequest b) with m | m | ⟨code, reason, body⟩ <;>
    simp [requestsCall, hw, PyExc.isRequestException, PyExc.msg]

/-- Client construction always succeeds, yielding the stripped base URL,
the given timeout and the probe's warnings. -/
theorem mkAIClient_eq (b : String) (t : Nat) (w : World) :
    mkAIClient b t w =
      .ok ({ base_url := rstripSlash b, timeout := t }, probeWarnings (rstripSlash b) w) := by
  unfold mkAIClient
  rw [verify_connection_eq]

/-- C5: Constructing a Client always succeeds regardless of the outcome of
its connectivity probe: the probe is a GET to /status with a 5-second
timeout, a probe transport failure or non-200 status produces only a
non-fatal warning, and construction never raises on probe failure. -/
theorem client_construction_never_raises (b : String) (t : Nat) (w : World)
    (code : Nat) (reason : String) (body : Option Json) (m : String) :
    (∃ ws, mkAIClient b t w = .ok ({ base_url := rstripSlash b, timeout := t }, ws)) ∧
    AIClient.probeRequest (rstripSlash b) =
      { method := "GET", url := rstripSlash b ++ "/status", jsonBody := none, timeout := 5 } ∧
    (w (AIClient.probeRequest (rstripSlash b)) = .response code reason body → code ≠ 200 →
       mkAIClient b t w = .ok ({ base_url := rstripSlash b, timeout := t },
         ["Warning: API returned status code " ++ toString code])) ∧
    (w (AIClient.probeRequest (rstripSlash b)) = .response code reason body → code = 200 →
       mkAIClient b t w = .ok ({ base_url := rstripSlash b, timeout := t }, [])) ∧
    (w (AIClient.probeRequest (rstripSlash b)) = .timedOut m ∨
       w (AIClient.probeRequest (rstripSlash b)) = .failed m →
       mkAIClient b t w = .ok ({ base_url := rstripSlash b, timeout := t },
         ["Warning: Could not connect to API: " ++ m])) := by
  refine ⟨⟨probeWarnings (rstripSlash b) w, mkAIClient_eq b t w⟩, rfl, ?_, ?_, ?_⟩
  · intro hw hc
    rw [mkAIClient_eq]
    simp [probeWarnings, requestsCall, hw, hc]
  · intro hw hc
    rw [mkAIClient_eq]
    simp [probeWarnings, requestsCall, hw, hc]
  · intro hw
    rcases hw with hw | hw <;>
      · rw [mkAIClient_eq]
        simp [probeWarnings, requestsCall, hw, PyExc.msg]

/-- A server whose every answer is HTTP 503. -/
def w503 : World := fun _ => .response 503 "Service Unavailable" none

/-- Witness for C5 at a concrete 503-answering server. -/
theorem client_construction_never_raises_witness :
    mkAIClient "http://h/" 180 w503 =
      .ok ({ base_url := rstripSlash "http://h/", timeout := 180 },
        ["Warning: API returned status code " ++ toString 503]) :=
  (client_construction_never_raises "http://h/" 180 w503 503 "Service Unavailable" none
    "m").2.2.1 rfl (by decide)

/-- Fixed example client for witnesses. -/
def cEx : AIClient := { base_url := "http://h", timeout := 180 }

/-- A network that always times out. -/
def wTimeoutEx : World := fun _ => .timedOut "t"

/-- A network whose every call fails in the transport. -/
def wFailEx : World := fun _ => .failed "connection refused"

/-- A server answering HTTP 500 with an empty JSON object. -/
def wHttp500Ex : World := fun _ => .response 500 "Internal Server Error" (some (Json.obj []))

/-- C1: For every prompt, chat never raises for network-layer failures: on
a timeout it returns status error with the fixed timeout message; on any
other transport failure, including a non-2xx HTTP status raised internally
by the call, it returns status error with "Request failed: " and the
failure's details. -/
theorem chat_never_raises_on_transport (c : AIClient) (w : World) (p : String)
    (u : Option String) (i : Option (List String)) (m : String)
    (code : Nat) (reason : String) (body : Option Json) :
    (w (c.chatRequest p u i) = .timedOut m →
       c.chat w p u i =
         .ok { status := Json.str "error",
               error := Json.str "Request timeout - AI taking too long to respond" }) ∧
    (w (c.chatRequest p u i) = .failed m →
       c.chat w p u i =
         .ok { status := Json.str "error",
               error := Json.str ("Request failed: " ++ m) }) ∧
    (w (c.chatRequest p u i) = .response code reason body → 400 ≤ code → code < 600 →
       c.chat w p u i =
         .ok { status := Json.str "error",
               error := Json.str ("Request failed: " ++
                 httpErrorMsg code reason (c.base_url ++ "/chat")) }) := by
  refine ⟨fun hw => ?_, fun hw => ?_, fun hw h4 h6 => ?_⟩
  · simp [AIClient.chat, requestsCall, hw, chatHandle, chatTryBody]
  · simp [AIClient.chat, requestsCall, hw, chatHandle, chatTryBody,
      PyExc.isRequestException, PyExc.msg]
  · have hrs := raise_for_status_error (c.base_url ++ "/chat") code reason body h4 h6
    have hw2 : w { method := "POST", url := c.base_url ++ "/chat",
                   jsonBody := some (chatPayload p u i), timeout := c.timeout } =
        .response code reason body := hw
    simp [AIClient.chat, AIClient.chatRequest, requestsCall, hw2, chatHandle,
      chatTryBody, hrs, PyExc.isRequestException, PyExc.msg]

/-- Witness for C1 at concrete failing networks. -/
theorem chat_never_raises_on_transport_witness :
    cEx.chat wTimeoutEx "hi" none none =
      .ok { status := Json.str "error",
            error := Json.str "Request timeout - AI taking too long to respond" } ∧
    cEx.chat wFailEx "hi" none none =
      .ok { status := Json.str "error",
            error := Json.str ("Request failed: " ++ "connection refused") } ∧
    cEx.chat wHttp500Ex "hi" none none =
      .ok { status := Json.str "error",
            error := Json.str ("Request failed: " ++
              httpErrorMsg 500 "Internal Server Error" (cEx.base_url ++ "/chat")) } :=
  ⟨(chat_never_raises_on_transport cEx wTimeoutEx "hi" none none "t" 0 "" none).1 rfl,
   (chat_never_raises_on_transport cEx wFailEx "hi" none none "connection refused"
      0 "" none).2.1 rfl,
   (chat_never_raises_on_transport cEx wHttp500Ex "hi" none none ""
      500 "Internal Server Error" (some (Json.obj []))).2.2 rfl (by decide) (by decide)⟩

/-- Body fields of the echo server scenario: `status: success`,
`images_uploaded: 1`. -/
def echoFields : List (String × Json) :=
  [("status", Json.str "success"), ("images_uploaded", Json.num 1)]

/-- A server answering 200 with the echo body. -/
def wEchoEx : World := fun _ => .response 200 "OK" (some (Json.obj echoFields))

/-- C2: For every chat call that succeeds at the HTTP level with a JSON
body, the returned ChatResponse is built from the parsed body: status is
the body's status field, defaulting to "error" if absent, and project_id,
response, error, images_uploaded are the corresponding body fields or
absent when the body omits them. -/
theorem chat_parses_json_body (c : AIClient) (w : World) (p : String)
    (u : Option String) (i : Option (List String)) (code : Nat) (reason : String)
    (fields : List (String × Json)) :
    w (c.chatRequest p u i) = .response code reason (some (Json.obj fields)) →
    200 ≤ code → code < 300 →
    c.chat w p u i =
      .ok { status := pyDictGetD fields "status" (Json.str "error"),
            project_id := pyDictGet fields "project_id",
            response := pyDictGet fields "response",
            error := pyDictGet fields "error",
            images_uploaded := pyDictGet fields "images_uploaded" } := by
  intro hw h2 h3
  have hrs := raise_for_status_ok (c.base_url ++ "/chat") code reason
    (some (Json.obj fields)) (by omega)
  have hw2 : w { method := "POST", url := c.base_url ++ "/chat",
                 jsonBody := some (chatPayload p u i), timeout := c.timeout } =
      .response code reason (some (Json.obj fields)) := hw
  simp [AIClient.chat, AIClient.chatRequest, requestsCall, hw2, chatHandle,
    chatTryBody, hrs, HttpResponse.json, pyGetAsDict, chatResponseOfDict]

/-- Witness for C2: against the echo server, the result's images_uploaded
field equals 1. -/
theorem chat_parses_json_body_witness :
    cEx.chat wEchoEx "Hello" none (some ["QUJD"]) =
      .ok { status := pyDictGetD echoFields "status" (Json.str "error"),
            project_id := pyDictGet echoFields "project_id",
            response := pyDictGet echoFields "response",
            error := pyDictGet echoFields "error",
            images_uploaded := pyDictGet echoFields "images_uploaded" } ∧
    pyDictGet echoFields "images_uploaded" = Json.num 1 ∧
    pyDictGetD echoFields "status" (Json.str "error") = Json.str "success" :=
  ⟨chat_parses_json_body cEx wEchoEx "Hello" none (some ["QUJD"]) 200 "OK" echoFields
     rfl (by decide) (by decide),
   rfl, rfl⟩

/-- A server answering 200 with a body that is not valid JSON. -/
def wBadBodyEx : World := fun _ => .response 200 "OK" none

/-- C4 counterexample: against a server answering HTTP 200 with an
unparseable body, chat returns a ChatResponse error value (the
JSONDecodeError raised by response.json() is a RequestException subclass
since requests 2.27.0, so the except clause catches it) — the parse
failure does not propagate to the caller. -/
theorem chat_malformed_body_caught :
    cEx.chat wBadBodyEx "hi" none none =
      .ok { status := Json.str "error",
            error := Json.str ("Request failed: " ++ "Expecting value") } := rfl

/-- C4 (amended): If chat receives an HTTP-level success whose body is
malformed or not JSON, the JSONDecodeError raised by response.json() is
itself a RequestException subclass, so chat's transport-failure handler
catches it and returns ChatResponse with status "error" and error
"Request failed: " followed by the parse error's details, instead of
propagating the failure to the caller. -/
theorem chat_malformed_body_wrapped (c : AIClient) (w : World) (p : String)
    (u : Option String) (i : Option (List String)) (code : Nat) (reason : String) :
    w (c.chatRequest p u i) = .response code reason none →
    200 ≤ code → code < 300 →
    c.chat w p u i =
      .ok { status := Json.str "error",
            error := Json.str ("Request failed: " ++ "Expecting value") } := by
  intro hw h2 h3
  have hrs := raise_for_status_ok (c.base_url ++ "/chat") code reason none (by omega)
  have hw2 : w { method := "POST", url := c.base_url ++ "/chat",
                 jsonBody := some (chatPayload p u i), timeout := c.timeout } =
      .response code reason none := hw
  simp [AIClient.chat, AIClient.chatRequest, requestsCall, hw2, chatHandle,
    chatTryBody, hrs, HttpResponse.json, PyExc.isRequestException, PyExc.msg]

/-- Witness for the amended C4 at a concrete 200-with-unparseable-body
server. -/
theorem chat_malformed_body_wrapped_witness :
    cEx.chat wBadBodyEx "hi" none none =
      .ok { status := Json.str "error",
            error := Json.str ("Request failed: " ++ "Expecting value") } :=
  chat_malformed_body_wrapped cEx wBadBodyEx "hi" none none 200 "OK" rfl
    (by decide) (by decide)

/-- C8: For every prompt, optional project_url and optional images, chat
issues a POST to base_url/chat whose JSON body contains exactly the keys
prompt, project_url and images, with project_url and images present as
null when not supplied, and uses the client's configured timeout for the
request. -/
theorem chat_request_shape (c : AIClient) (p : String) (u : Option String)
    (i : Option (List String)) (w : World) :
    c.chatRequest p u i =
      { method := "POST", url := c.base_url ++ "/chat",
        jsonBody := some (Json.obj
          [("prompt", Json.str p),
           ("project_url", jsonOfOption Json.str u),
           ("images", jsonOfOption (fun xs => Json.arr (xs.map Json.str)) i)]),
        timeout := c.timeout } ∧
    jsonOfOption Json.str (none : Option String) = Json.null ∧
    jsonOfOption (fun xs => Json.arr (xs.map Json.str)) (none : Option (List String)) =
      Json.null ∧
    c.chat w p u i = chatHandle (requestsCall w (c.chatRequest p u i)) :=
  ⟨rfl, rfl, rfl, rfl⟩

/-- C9: For every ChatResponse value, its success accessor is true if and
only if its status field equals exactly the string "success"; any other
status yields false. -/
theorem success_iff_status_success (r : ChatResponse) :
    r.success = true ↔ r.status = Json.str "success" := by
  cases h : r.status <;> simp [ChatResponse.success, pyEqStr, h]

/-- Witness for C9 at a concrete ChatResponse. -/
theorem success_iff_status_success_witness :
    ChatResponse.success { status := Json.str "success" } = true :=
  (success_iff_status_success { status := Json.str "success" }).mpr rfl

/-- A server whose chat body has status success but no response field. -/
def wNoResponseField : World := fun req =>
  if req.method = "POST" then
    .response 200 "OK" (some (Json.obj [("status", Json.str "success")]))
  else
    .response 200 "OK" (some (Json.obj []))

/-- C10: If the server's JSON body has status "success" but omits the
response field, quick_chat returns the absent value (None) rather than a
string, so its declared string return type is not guaranteed for such
bodies. -/
theorem quick_chat_missing_response_is_none :
    quick_chat "hi" "http://h" none none wNoResponseField = .ok Json.null ∧
    Json.isStr Json.null = false :=
  ⟨rfl, rfl⟩

/-- C3: For every prompt, optional project_url and optional images list,
quick_chat constructs a throwaway Client, calls chat, and returns the
response text when the result is successful and otherwise the string
"Error: " concatenated with the result's error message; it never raises
for network-layer problems and never returns the structured ChatResponse. -/
theorem quick_chat_behavior (p b : String) (u : Option String)
    (i : Option (List String)) (w : World) (m : String) :
    (w (AIClient.chatRequest { base_url := rstripSlash b, timeout := 180 } p u i) =
        .timedOut m →
       quick_chat p b u i w =
         .ok (Json.str "Error: Request timeout - AI taking too long to respond")) ∧
    (w (AIClient.chatRequest { base_url := rstripSlash b, timeout := 180 } p u i) =
        .failed m →
       quick_chat p b u i w =
         .ok (Json.str ("Error: " ++ ("Request failed: " ++ m)))) ∧
    (∀ r : ChatResponse,
       AIClient.chat { base_url := rstripSlash b, timeout := 180 } w p u i = .ok r →
       r.success = true → quick_chat p b u i w = .ok r.response) ∧
    (∀ r : ChatResponse,
       AIClient.chat { base_url := rstripSlash b, timeout := 180 } w p u i = .ok r →
       r.success = false →
       quick_chat p b u i w = .ok (Json.str ("Error: " ++ pyStr r.error))) := by
  refine ⟨fun hw => ?_, fun hw => ?_, fun r hr hs => ?_, fun r hr hs => ?_⟩
  · have hc : AIClient.chat { base_url := rstripSlash b, timeout := 180 } w p u i =
        .ok { status := Json.str "error",
              error := Json.str "Request timeout - AI taking too long to respond" } := by
      simp [AIClient.chat, requestsCall, hw, chatHandle, chatTryBody]
    simp [quick_chat, mkAIClient_eq, hc, ChatResponse.success, pyEqStr, pyStr]
  · have hc : AIClient.chat { base_url := rstripSlash b, timeout := 180 } w p u i =
        .ok { status := Json.str "error",
              error := Json.str ("Request failed: " ++ m) } := by
      simp [AIClient.chat, requestsCall, hw, chatHandle, chatTryBody,
        PyExc.isRequestException, PyExc.msg]
    simp [quick_chat, mkAIClient_eq, hc, ChatResponse.success, pyEqStr, pyStr]
  · simp [quick_chat, mkAIClient_eq, hr, hs]
  · simp [quick_chat, mkAIClient_eq, hr, hs]

/-- Witness for C3 at concrete networks: timeout, transport failure, and a
successful response lacking the response field. -/
theorem quick_chat_behavior_witness :
    quick_chat "hi" "http://h" none none wTimeoutEx =
      .ok (Json.str "Error: Request timeout - AI taking too long to respond") ∧
    quick_chat "hi" "http://h" none none wFailEx =
      .ok (Json.str ("Error: " ++ ("Request failed: " ++ "connection refused"))) ∧
    quick_chat "hi" "http://h" none none wEchoEx = .ok Json.null :=
  ⟨(quick_chat_behavior "hi" "http://h" none none wTimeoutEx "t").1 rfl,
   (quick_chat_behavior "hi" "http://h" none none wFailEx "connection refused").2.1 rfl,
   (quick_chat_behavior "hi" "http://h" none none wEchoEx "m").2.2.1
     { status := Json.str "success", images_uploaded := Json.num 1 } rfl rfl⟩

/-- C6 counterexample: a server answering HTTP 300 (non-2xx) with a JSON
body: get_status returns the decoded body normally rather than raising,
because raise_for_status only raises for 4xx/5xx codes. -/
def wMulti : World :=
  fun _ => .response 300 "Multiple Choices" (some (Json.obj [("api_status", Json.str "ok")]))

/-- C6 counterexample: against a server whose /status answers HTTP 300
with a JSON body, get_status returns the body instead of raising, so
"raises on any non-2xx HTTP status" is false as stated. -/
theorem get_status_300_does_not_raise :
    cEx.get_status wMulti = .ok (Json.obj [("api_status", Json.str "ok")]) := rfl

/-- C6 (amended): each of get_status, list_projects and reload_engine
propagates transport failures and raises HTTPError for any 4xx or 5xx
status (other non-2xx codes pass raise_for_status), returns the decoded
JSON body as-is on a non-raising status, and uses timeouts of 5, 5 and 30
seconds respectively. -/
theorem monitoring_ops_raise (c : AIClient) (w : World) (m : String)
    (code : Nat) (reason : String) (body : Option Json) (j : Json) :
    (w c.statusRequest = .timedOut m → c.get_status w = .error (.timeout m)) ∧
    (w c.statusRequest = .failed m → c.get_status w = .error (.connError m)) ∧
    (w c.statusRequest = .response code reason body → 400 ≤ code → code < 600 →
       c.get_status w =
         .error (.httpError (httpErrorMsg code reason (c.base_url ++ "/status")))) ∧
    (w c.statusRequest = .response code reason (some j) → ¬(400 ≤ code ∧ code < 600) →
       c.get_status w = .ok j) ∧
    (w c.projectsRequest = .timedOut m → c.list_projects w = .error (.timeout m)) ∧
    (w c.projectsRequest = .failed m → c.list_projects w = .error (.connError m)) ∧
    (w c.projectsRequest = .response code reason body → 400 ≤ code → code < 600 →
       c.list_projects w =
         .error (.httpError (httpErrorMsg code reason (c.base_url ++ "/projects")))) ∧
    (w c.projectsRequest = .response code reason (some j) → ¬(400 ≤ code ∧ code < 600) →
       c.list_projects w = .ok j) ∧
    (w c.reloadRequest = .timedOut m → c.reload_engine w = .error (.timeout m)) ∧
    (w c.reloadRequest = .failed m → c.reload_engine w = .error (.connError m)) ∧
    (w c.reloadRequest = .response code reason body → 400 ≤ code → code < 600 →
       c.reload_engine w =
         .error (.httpError (httpErrorMsg code reason (c.base_url ++ "/reload")))) ∧
    (w c.reloadRequest = .response code reason (some j) → ¬(400 ≤ code ∧ code < 600) →
       c.reload_engine w = .ok j) ∧
    c.statusRequest =
      { method := "GET", url := c.base_url ++ "/status", jsonBody := none, timeout := 5 } ∧
    c.projectsRequest =
      { method := "GET", url := c.base_url ++ "/projects", jsonBody := none, timeout := 5 } ∧
    c.reloadRequest =
      { method := "POST", url := c.base_url ++ "/reload", jsonBody := none, timeout := 30 } := by
  refine ⟨fun hw => ?_, fun hw => ?_, fun hw h4 h6 => ?_, fun hw hn => ?_,
          fun hw => ?_, fun hw => ?_, fun hw h4 h6 => ?_, fun hw hn => ?_,
          fun hw => ?_, fun hw => ?_, fun hw h4 h6 => ?_, fun hw hn => ?_,
          rfl, rfl, rfl⟩
  · simp [AIClient.get_status, requestsCall, hw]
  · simp [AIClient.get_status, requestsCall, hw]
  · have hrs := raise_for_status_error (c.base_url ++ "/status") code reason body h4 h6
    have hw2 : w { method := "GET", url := c.base_url ++ "/status",
                   jsonBody := none, timeout := 5 } = .response code reason body := hw
    simp [AIClient.get_status, AIClient.statusRequest, requestsCall, hw2, hrs]
  · have hrs := raise_for_status_ok (c.base_url ++ "/status") code reason (some j) (by omega)
    have hw2 : w { method := "GET", url := c.base_url ++ "/status",
                   jsonBody := none, timeout := 5 } = .response code reason (some j) := hw
    simp [AIClient.get_status, AIClient.statusRequest, requestsCall, hw2, hrs,
      HttpResponse.json]
  · simp [AIClient.list_projects, requestsCall, hw]
  · simp [AIClient.list_projects, requestsCall, hw]
  · have hrs := raise_for_status_error (c.base_url ++ "/projects") code reason body h4 h6
    have hw2 : w { method := "GET", url := c.base_url ++ "/projects",
                   jsonBody := none, timeout := 5 } = .response code reason body := hw
    simp [AIClient.list_projects, AIClient.projectsRequest, requestsCall, hw2, hrs]
  · have hrs := raise_for_status_ok (c.base_url ++ "/projects") code reason (some j) (by omega)
    have hw2 : w { method := "GET", url := c.base_url ++ "/projects",
                   jsonBody := none, timeout := 5 } = .response code reason (some j) := hw
    simp [AIClient.list_projects, AIClient.projectsRequest, requestsCall, hw2, hrs,
      HttpResponse.json]
  · simp [AIClient.reload_engine, requestsCall, hw]
  · simp [AIClient.reload_engine, requestsCall, hw]
  · have hrs := raise_for_status_error (c.base_url ++ "/reload") code reason body h4 h6
    have hw2 : w { method := "POST", url := c.base_url ++ "/reload",
                   jsonBody := none, timeout := 30 } = .response code reason body := hw
    simp [AIClient.reload_engine, AIClient.reloadRequest, requestsCall, hw2, hrs]
  · have hrs := raise_for_status_ok (c.base_url ++ "/reload") code reason (some j) (by omega)
    have hw2 : w { method := "POST", url := c.base_url ++ "/reload",
                   jsonBody := none, timeout := 30 } = .response code reason (some j) := hw
    simp [AIClient.reload_engine, AIClient.reloadRequest, requestsCall, hw2, hrs,
      HttpResponse.json]

/-- Witness for the amended C6 at concrete servers: a 500 raises HTTPError
from get_status, a timeout raises Timeout from list_projects, and a 200 JSON
body is returned as-is by reload_engine. -/
theorem monitoring_ops_raise_witness :
    cEx.get_status wHttp500Ex =
      .error (.httpError (httpErrorMsg 500 "Internal Server Error"
        (cEx.base_url ++ "/status"))) ∧
    cEx.list_projects wTimeoutEx = .error (.timeout "t") ∧
    cEx.reload_engine wEchoEx = .ok (Json.obj echoFields) :=
  ⟨(monitoring_ops_raise cEx wHttp500Ex "m" 500 "Internal Server Error"
      (some (Json.obj [])) Json.null).2.2.1 rfl (by decide) (by decide),
   (monitoring_ops_raise cEx wTimeoutEx "t" 0 "" none Json.null).2.2.2.2.1 rfl,
   (monitoring_ops_raise cEx wEchoEx "m" 200 "OK" none
      (Json.obj echoFields)).2.2.2.2.2.2.2.2.2.2.2.1 rfl (by decide)⟩

/-- C7: For every file that exists, decoding the base64 string returned by
encode_image reproduces the file's original bytes exactly (round-trip
law); applied to a path that does not exist, encode_image fails with a
file-not-found condition that is not caught or wrapped. -/
theorem encode_image_roundtrip (fs : FileSystem) (path : String) :
    (∀ bytes : List Nat, fs path = some bytes → (∀ b ∈ bytes, b < 256) →
       encode_image fs path = .ok (b64encode bytes) ∧
       b64decodeString (b64encode bytes) = some bytes) ∧
    (fs path = none → encode_image fs path = .error (.fileNotFound path)) := by
  constructor
  · intro bytes hb hlt
    refine ⟨by simp [encode_image, hb], ?_⟩
    simpa [b64decodeString, b64encode, String.toList] using b64_roundtrip bytes hlt
  · intro h
    simp [encode_image, h]

/-- A file system with one two-byte file. -/
def fsEx : FileSystem := fun p => if p = "img.png" then some [104, 105] else none

/-- Witness for C7 at a concrete file system. -/
theorem encode_image_roundtrip_witness :
    (encode_image fsEx "img.png" = .ok (b64encode [104, 105]) ∧
     b64decodeString (b64encode [104, 105]) = some [104, 105]) ∧
    encode_image fsEx "missing.png" = .error (.fileNotFound "missing.png") :=
  ⟨(encode_image_roundtrip fsEx "img.png").1 [104, 105] (by decide) (by decide),
   (encode_image_roundtrip fsEx "missing.png").2 (by decide)⟩
